import Mathlib

/-!
Shallow embedding of the notification info store
(`src/mynah/stores/notificationsInfoStore.ts`), the Application Composer
init message handler
(`src/applicationcomposer/messageHandlers/initMessageHandler.ts`) and the
IoT policy tree node children operation, together with theorems checking
the specification's claims about them.

Conventions of the embedding:
* The host's `vscode.Memento` key-value persistence is modelled as a total
  map from string keys to optionally-present records, plus a `fail` field:
  when `fail = some e`, every host storage operation rejects with `e`
  (modelling a rejected promise); when `fail = none`, operations succeed.
* Asynchronous methods returning `Promise<T>` become functions returning
  `Except String T`; a rejected promise is `Except.error`.  The TypeScript
  methods contain no `try`/`catch`, which the monadic bind mirrors.
* `new Date().getTime()` is modelled by an explicit `now : Nat` argument.
-/

/-- Key prefix for persisted notification records
(`StorageKey` in `notificationsInfoStore.ts`). -/
def StorageKey : String := "NOTIFICATION_INFO_"

/-- A persisted notification record
(interface `NotificationInfoRecord` in `notificationsInfoStore.ts`). -/
structure NotificationInfoRecord where
  notificationName : String
  viewsCounter : Nat
  lastSeen : Nat
  muted : Bool
deriving Repr, DecidableEq

/-- The host key-value persistence object (`vscode.Memento`): `data` is the
current key-to-record mapping, `fail` makes every operation reject with the
given error, modelling host storage failure. -/
structure Memento where
  data : String → Option NotificationInfoRecord
  fail : Option String

/-- `Memento.get(key)`: resolves with the stored value (or `undefined`),
or rejects if the host store fails. -/
def Memento.get (m : Memento) (key : String) :
    Except String (Option NotificationInfoRecord) :=
  match m.fail with
  | some e => Except.error e
  | none => Except.ok (m.data key)

/-- `Memento.update(key, value)`: stores `value` under `key`,
or rejects if the host store fails. -/
def Memento.update (m : Memento) (key : String) (value : NotificationInfoRecord) :
    Except String Memento :=
  match m.fail with
  | some e => Except.error e
  | none => Except.ok { m with data := fun k => if k = key then some value else m.data k }

/-- The store state: a global-scoped and a workplace-scoped `Memento`
(constructor of class `NotificationInfoStore`). -/
structure NotificationInfoStore where
  globalStore : Memento
  workplaceStore : Memento

/-- `getRecordFromGlobalStore`: reads the record under `StorageKey + name`
from the global store. -/
def NotificationInfoStore.getRecordFromGlobalStore (s : NotificationInfoStore)
    (notificationName : String) : Except String (Option NotificationInfoRecord) :=
  s.globalStore.get (StorageKey ++ notificationName)

/-- `getRecordFromWorkplaceStore`: reads the record under `StorageKey + name`
from the workplace store. -/
def NotificationInfoStore.getRecordFromWorkplaceStore (s : NotificationInfoStore)
    (notificationName : String) : Except String (Option NotificationInfoRecord) :=
  s.workplaceStore.get (StorageKey ++ notificationName)

/-- `addRecordToWorkplaceStore`: writes `record` verbatim under
`StorageKey + record.notificationName` in the workplace store. -/
def NotificationInfoStore.addRecordToWorkplaceStore (s : NotificationInfoStore)
    (record : NotificationInfoRecord) : Except String NotificationInfoStore := do
  let m ← s.workplaceStore.update (StorageKey ++ record.notificationName) record
  return { s with workplaceStore := m }

/-- `addRecordToGlobalStore`: writes `record` verbatim under
`StorageKey + record.notificationName` in the global store. -/
def NotificationInfoStore.addRecordToGlobalStore (s : NotificationInfoStore)
    (record : NotificationInfoRecord) : Except String NotificationInfoStore := do
  let m ← s.globalStore.update (StorageKey ++ record.notificationName) record
  return { s with globalStore := m }

/-- `getEmptyRecord` (private method): the fresh record used when no record
is stored under a name yet. -/
def NotificationInfoStore.getEmptyRecord (notificationName : String) :
    NotificationInfoRecord :=
  { notificationName := notificationName
    viewsCounter := 0
    lastSeen := 0
    muted := false }

/-- `setMuteStatusInWorkplaceStore`: read-modify-write setting the `muted`
field to `isMuted`, starting from the empty record when absent. -/
def NotificationInfoStore.setMuteStatusInWorkplaceStore (s : NotificationInfoStore)
    (notificationName : String) (isMuted : Bool) : Except String NotificationInfoStore := do
  let found ← s.getRecordFromWorkplaceStore notificationName
  let record := found.getD (NotificationInfoStore.getEmptyRecord notificationName)
  let record := { record with muted := isMuted }
  let m ← s.workplaceStore.update (StorageKey ++ notificationName) record
  return { s with workplaceStore := m }

/-- `setMuteStatusInGlobalStore`: read-modify-write setting the `muted`
field to `isMuted`, starting from the empty record when absent. -/
def NotificationInfoStore.setMuteStatusInGlobalStore (s : NotificationInfoStore)
    (notificationName : String) (isMuted : Bool) : Except String NotificationInfoStore := do
  let found ← s.getRecordFromGlobalStore notificationName
  let record := found.getD (NotificationInfoStore.getEmptyRecord notificationName)
  let record := { record with muted := isMuted }
  let m ← s.globalStore.update (StorageKey ++ notificationName) record
  return { s with globalStore := m }

/-- `addNewViewToNotificationInWorkplaceStore`: read-modify-write
incrementing `viewsCounter` and stamping `lastSeen` with the current time
(`now` models `new Date().getTime()`). -/
def NotificationInfoStore.addNewViewToNotificationInWorkplaceStore
    (s : NotificationInfoStore) (notificationName : String) (now : Nat) :
    Except String NotificationInfoStore := do
  let found ← s.getRecordFromWorkplaceStore notificationName
  let record := found.getD (NotificationInfoStore.getEmptyRecord notificationName)
  let record := { record with viewsCounter := record.viewsCounter + 1, lastSeen := now }
  let m ← s.workplaceStore.update (StorageKey ++ notificationName) record
  return { s with workplaceStore := m }

/-- `addNewViewToNotificationInGlobalStore`: read-modify-write
incrementing `viewsCounter` and stamping `lastSeen` with the current time
(`now` models `new Date().getTime()`). -/
def NotificationInfoStore.addNewViewToNotificationInGlobalStore
    (s : NotificationInfoStore) (notificationName : String) (now : Nat) :
    Except String NotificationInfoStore := do
  let found ← s.getRecordFromGlobalStore notificationName
  let record := found.getD (NotificationInfoStore.getEmptyRecord notificationName)
  let record := { record with viewsCounter := record.viewsCounter + 1, lastSeen := now }
  let m ← s.globalStore.update (StorageKey ++ notificationName) record
  return { s with globalStore := m }

/-- `MessageType` tag used by the init response (`MessageType.RESPONSE`). -/
inductive MessageType where
  | request
  | response
deriving Repr, DecidableEq

/-- `Command` tag used by the init response (`Command.INIT`). -/
inductive Command where
  | init
deriving Repr, DecidableEq

/-- The shape of the init response message (`InitResponseMessage`). -/
structure InitResponseMessage where
  messageType : MessageType
  command : Command
  templateFileName : String
  templateFilePath : String
  isConnectedToCodeWhisperer : Bool
deriving Repr, DecidableEq

/-- The webview context, reduced to the field the init handler reads. -/
structure WebviewContext where
  defaultTemplatePath : String
deriving Repr, DecidableEq

/-- The chat auth state returned by `getChatAuthState`;
`codewhispererChat` is a string tag such as "connected" or "expired". -/
structure ChatAuthState where
  codewhispererChat : String
deriving Repr, DecidableEq

/-- Node's `path.basename` (posix, no extension argument): drop trailing
separators, then take the part after the last separator. -/
def basename (p : String) : String :=
  String.mk (((p.data.reverse.dropWhile (fun c => c = '/')).takeWhile
    (fun c => ¬ c = '/')).reverse)

/-- `initMessageHandler(context)`: builds the init response from the
context's `defaultTemplatePath` and the chat auth state, and posts it to
the webview.  The returned list is the sequence of messages posted by one
invocation. -/
def initMessageHandler (context : WebviewContext) (authState : ChatAuthState) :
    List InitResponseMessage :=
  let filePath := context.defaultTemplatePath
  let responseMessage : InitResponseMessage :=
    { messageType := MessageType.response
      command := Command.init
      templateFileName := basename filePath
      templateFilePath := filePath
      isConnectedToCodeWhisperer :=
        (authState.codewhispererChat == "connected") ||
          (authState.codewhispererChat == "expired") }
  [responseMessage]

/-- An IoT policy (`IotPolicy`: name and arn). -/
structure IotPolicy where
  name : String
  arn : String
deriving Repr, DecidableEq

/-- An IoT policy version (`Iot.PolicyVersion`: versionId and default flag). -/
structure PolicyVersion where
  versionId : String
  isDefaultVersion : Bool
deriving Repr, DecidableEq

/-- A tree node for one policy version, carrying the policy it belongs to
and the version data (`IotPolicyVersionNode`). -/
structure IotPolicyVersionNode where
  policy : IotPolicy
  version : PolicyVersion
deriving Repr, DecidableEq

/-- Modelled from the spec: `IotPolicyWithVersionsNode.getChildren` — the
implementing file `iot/explorer/iotPolicyNode.ts` is not among the provided
sources, only its test is.  Per the spec, `getChildren` fetches the version
list from the IoT client's `listPolicyVersions` (here the `listedVersions`
argument) and wraps each returned version in one `IotPolicyVersionNode`
carrying the original policy and version data unchanged. -/
def IotPolicyWithVersionsNode.getChildren (policy : IotPolicy)
    (listedVersions : List PolicyVersion) : List IotPolicyVersionNode :=
  listedVersions.map (fun v => { policy := policy, version := v })

/-! ### Concrete stores used by witnesses and counterexamples -/

/-- A memento with no stored records and a working host store. -/
def emptyMemento : Memento :=
  { data := fun _ => none, fail := none }

/-- A store whose two mementos are empty and working. -/
def emptyStore : NotificationInfoStore :=
  { globalStore := emptyMemento, workplaceStore := emptyMemento }

/-- A sample record used by witnesses. -/
def sampleRecord : NotificationInfoRecord :=
  { notificationName := "n", viewsCounter := 5, lastSeen := 100, muted := false }

/-- A store whose workplace memento holds `sampleRecord` under the key for "n". -/
def storeWithN : NotificationInfoStore :=
  { globalStore := emptyMemento
    workplaceStore :=
      { data := fun k => if k = StorageKey ++ "n" then some sampleRecord else none
        fail := none } }

/-- A record that is currently muted. -/
def mutedRecord : NotificationInfoRecord :=
  { notificationName := "n", viewsCounter := 5, lastSeen := 100, muted := true }

/-- A store whose workplace memento holds `mutedRecord` under the key for "n". -/
def mutedStore : NotificationInfoStore :=
  { globalStore := emptyMemento
    workplaceStore :=
      { data := fun k => if k = StorageKey ++ "n" then some mutedRecord else none
        fail := none } }

/-- A store whose host storage fails on both scopes. -/
def failingStore : NotificationInfoStore :=
  { globalStore := { data := fun _ => none, fail := some "boom" }
    workplaceStore := { data := fun _ => none, fail := some "boom" } }

/-! ### Helper lemmas on the promise monad -/

/-- Bind on a resolved promise. -/
theorem exceptBind_ok {α β : Type} (a : α) (f : α → Except String β) :
    (Except.ok a >>= f) = f a := rfl

/-- Bind on a rejected promise short-circuits. -/
theorem exceptBind_error {α β : Type} (e : String) (f : α → Except String β) :
    ((Except.error e : Except String α) >>= f) = Except.error e := rfl

/-- Map on a resolved promise. -/
theorem exceptMap_ok {α β : Type} (a : α) (f : α → β) :
    (f <$> (Except.ok a : Except String α)) = Except.ok (f a) := rfl

/-- Map on a rejected promise. -/
theorem exceptMap_error {α β : Type} (e : String) (f : α → β) :
    (f <$> (Except.error e : Except String α)) = Except.error e := rfl

/-- Sanity: Node basename of a typical template path. -/
theorem basename_eval_template : basename "/a/b.yaml" = "b.yaml" := by decide

/-- Sanity: Node basename ignores trailing separators. -/
theorem basename_eval_trailing : basename "/foo/bar/" = "bar" := by decide

/-! ### Claims -/

/-- Claim C1: for every policy and every list of policy versions returned by
the IoT client's listPolicyVersions, `IotPolicyWithVersionsNode.getChildren`
returns exactly one `IotPolicyVersionNode` per returned version, whose
`policy` field is the original policy and whose `version` field is the
original version data, both unchanged. -/
theorem C1_getChildren_one_node_per_version (policy : IotPolicy)
    (listedVersions : List PolicyVersion) (i : Nat) :
    (IotPolicyWithVersionsNode.getChildren policy listedVersions).length =
      listedVersions.length ∧
    (IotPolicyWithVersionsNode.getChildren policy listedVersions)[i]? =
      (listedVersions[i]?).map (fun v => { policy := policy, version := v }) := by
  constructor
  · simp [IotPolicyWithVersionsNode.getChildren]
  · simp [IotPolicyWithVersionsNode.getChildren]

/-- Claim C2: with no record stored under the name in the global store,
`addNewViewToNotificationInGlobalStore` stores a record with
`viewsCounter = 1` whose `lastSeen` is the clock value of the call (which is
at least the call time); calling it a second time stores `viewsCounter = 2`. -/
theorem C2_addNewView_creates_then_increments (s : NotificationInfoStore)
    (name : String) (callTime t1 t2 : Nat)
    (hok : s.globalStore.fail = none)
    (habsent : s.globalStore.data (StorageKey ++ name) = none)
    (hclock : callTime ≤ t1) :
    (do
      let s1 ← s.addNewViewToNotificationInGlobalStore name t1
      s1.getRecordFromGlobalStore name) =
      Except.ok (some
        { notificationName := name
          viewsCounter := 1
          lastSeen := t1
          muted := false }) ∧
    (∀ rec : NotificationInfoRecord,
      (do
        let s1 ← s.addNewViewToNotificationInGlobalStore name t1
        s1.getRecordFromGlobalStore name) = Except.ok (some rec) →
      callTime ≤ rec.lastSeen) ∧
    (do
      let s1 ← s.addNewViewToNotificationInGlobalStore name t1
      let s2 ← s1.addNewViewToNotificationInGlobalStore name t2
      s2.getRecordFromGlobalStore name) =
      Except.ok (some
        { notificationName := name
          viewsCounter := 2
          lastSeen := t2
          muted := false }) := by
  have hA : (do
      let s1 ← s.addNewViewToNotificationInGlobalStore name t1
      s1.getRecordFromGlobalStore name) =
      Except.ok (some
        { notificationName := name
          viewsCounter := 1
          lastSeen := t1
          muted := false }) := by
    simp [NotificationInfoStore.addNewViewToNotificationInGlobalStore,
      NotificationInfoStore.getRecordFromGlobalStore,
      NotificationInfoStore.getEmptyRecord, Memento.get, Memento.update,
      hok, habsent, exceptBind_ok, exceptMap_ok]
  refine ⟨hA, ?_, ?_⟩
  · intro rec h
    rw [hA] at h
    simp only [Except.ok.injEq, Option.some.injEq] at h
    subst h
    exact hclock
  · simp [NotificationInfoStore.addNewViewToNotificationInGlobalStore,
      NotificationInfoStore.getRecordFromGlobalStore,
      NotificationInfoStore.getEmptyRecord, Memento.get, Memento.update,
      hok, habsent, exceptBind_ok, exceptMap_ok]

/-- Witness for C2 at the empty store, name "n", call time 5, clock values
5 and 7. -/
theorem C2_addNewView_creates_then_increments_witness :
    emptyStore.globalStore.fail = none ∧
    emptyStore.globalStore.data (StorageKey ++ "n") = none ∧
    5 ≤ 5 ∧
    (do
      let s1 ← emptyStore.addNewViewToNotificationInGlobalStore "n" 5
      s1.getRecordFromGlobalStore "n") =
      Except.ok (some
        { notificationName := "n"
          viewsCounter := 1
          lastSeen := 5
          muted := false }) ∧
    (do
      let s1 ← emptyStore.addNewViewToNotificationInGlobalStore "n" 5
      let s2 ← s1.addNewViewToNotificationInGlobalStore "n" 7
      s2.getRecordFromGlobalStore "n") =
      Except.ok (some
        { notificationName := "n"
          viewsCounter := 2
          lastSeen := 7
          muted := false }) :=
  ⟨rfl, rfl, by decide,
    (C2_addNewView_creates_then_increments emptyStore "n" 5 5 7 rfl rfl
      (by decide)).1,
    (C2_addNewView_creates_then_increments emptyStore "n" 5 5 7 rfl rfl
      (by decide)).2.2⟩

/-- Claim C3: when a record is stored under the name in the workplace store,
`setMuteStatusInWorkplaceStore(name, true)` followed by
`getRecordFromWorkplaceStore(name)` yields that record with `muted = true`
and `notificationName`, `viewsCounter`, `lastSeen` unchanged. -/
theorem C3_setMute_true_preserves_other_fields (s : NotificationInfoStore)
    (name : String) (r : NotificationInfoRecord)
    (hok : s.workplaceStore.fail = none)
    (hr : s.workplaceStore.data (StorageKey ++ name) = some r) :
    (do
      let s1 ← s.setMuteStatusInWorkplaceStore name true
      s1.getRecordFromWorkplaceStore name) =
      Except.ok (some { r with muted := true }) := by
  simp [NotificationInfoStore.setMuteStatusInWorkplaceStore,
    NotificationInfoStore.getRecordFromWorkplaceStore, Memento.get,
    Memento.update, hok, hr, exceptBind_ok, exceptMap_ok]

/-- Witness for C3 at a store holding `sampleRecord` under the key for "n". -/
theorem C3_setMute_true_preserves_other_fields_witness :
    storeWithN.workplaceStore.fail = none ∧
    storeWithN.workplaceStore.data (StorageKey ++ "n") = some sampleRecord ∧
    (do
      let s1 ← storeWithN.setMuteStatusInWorkplaceStore "n" true
      s1.getRecordFromWorkplaceStore "n") =
      Except.ok (some { sampleRecord with muted := true }) :=
  ⟨rfl, by decide,
    C3_setMute_true_preserves_other_fields storeWithN "n" sampleRecord rfl
      (by decide)⟩

/-- Claim C4: every message posted by `initMessageHandler` satisfies
`templateFileName = basename templateFilePath`, and `templateFilePath`
equals the context's `defaultTemplatePath`. -/
theorem C4_templateFileName_is_basename_of_path (context : WebviewContext)
    (authState : ChatAuthState) (m : InitResponseMessage)
    (hm : m ∈ initMessageHandler context authState) :
    m.templateFileName = basename m.templateFilePath ∧
    m.templateFilePath = context.defaultTemplatePath := by
  simp [initMessageHandler] at hm
  subst hm
  exact ⟨rfl, rfl⟩

/-- Witness for C4 at the path "/a/b.yaml" and a connected auth state. -/
theorem C4_templateFileName_is_basename_of_path_witness :
    ((⟨MessageType.response, Command.init, "b.yaml", "/a/b.yaml", true⟩ :
      InitResponseMessage) ∈
      initMessageHandler ⟨"/a/b.yaml"⟩ ⟨"connected"⟩) ∧
    (⟨MessageType.response, Command.init, "b.yaml", "/a/b.yaml", true⟩ :
      InitResponseMessage).templateFileName =
      basename (⟨MessageType.response, Command.init, "b.yaml", "/a/b.yaml",
        true⟩ : InitResponseMessage).templateFilePath ∧
    (⟨MessageType.response, Command.init, "b.yaml", "/a/b.yaml", true⟩ :
      InitResponseMessage).templateFilePath =
      (⟨"/a/b.yaml"⟩ : WebviewContext).defaultTemplatePath :=
  ⟨by decide,
    C4_templateFileName_is_basename_of_path ⟨"/a/b.yaml"⟩ ⟨"connected"⟩
      ⟨MessageType.response, Command.init, "b.yaml", "/a/b.yaml", true⟩
      (by decide)⟩

/-- Counterexample to claim C5 as stated: the mute operations do not invert
the stored `muted` value.  At a store whose record under "n" is already
muted, `setMuteStatusInWorkplaceStore("n", true)` leaves `muted = true`,
whereas inverting the stored value would have produced `false`. -/
theorem C5_toggle_counterexample :
    Option.map NotificationInfoRecord.muted <$>
      mutedStore.getRecordFromWorkplaceStore "n" = Except.ok (some true) ∧
    Option.map NotificationInfoRecord.muted <$> (do
      let s1 ← mutedStore.setMuteStatusInWorkplaceStore "n" true
      s1.getRecordFromWorkplaceStore "n") ≠ Except.ok (some false) := by
  constructor
  · rfl
  · have h : Option.map NotificationInfoRecord.muted <$> (do
        let s1 ← mutedStore.setMuteStatusInWorkplaceStore "n" true
        s1.getRecordFromWorkplaceStore "n") = Except.ok (some true) := rfl
    rw [h]
    simp

/-- Claim C5 as amended: `setMuteStatusInWorkplaceStore` and
`setMuteStatusInGlobalStore` set the stored record's `muted` flag to the
boolean argument (rather than inverting the stored value), for every prior
record state. -/
theorem C5_amended_setMute_sets_given_flag (s : NotificationInfoStore)
    (name : String) (b : Bool)
    (hgok : s.globalStore.fail = none)
    (hwok : s.workplaceStore.fail = none) :
    Option.map NotificationInfoRecord.muted <$> (do
      let s1 ← s.setMuteStatusInWorkplaceStore name b
      s1.getRecordFromWorkplaceStore name) = Except.ok (some b) ∧
    Option.map NotificationInfoRecord.muted <$> (do
      let s1 ← s.setMuteStatusInGlobalStore name b
      s1.getRecordFromGlobalStore name) = Except.ok (some b) := by
  constructor
  · simp [NotificationInfoStore.setMuteStatusInWorkplaceStore,
      NotificationInfoStore.getRecordFromWorkplaceStore, Memento.get,
      Memento.update, hwok, exceptBind_ok, exceptMap_ok]
  · simp [NotificationInfoStore.setMuteStatusInGlobalStore,
      NotificationInfoStore.getRecordFromGlobalStore, Memento.get,
      Memento.update, hgok, exceptBind_ok, exceptMap_ok]

/-- Witness for the amended C5 at a store that already holds a muted record. -/
theorem C5_amended_setMute_sets_given_flag_witness :
    mutedStore.globalStore.fail = none ∧
    mutedStore.workplaceStore.fail = none ∧
    Option.map NotificationInfoRecord.muted <$> (do
      let s1 ← mutedStore.setMuteStatusInWorkplaceStore "n" true
      s1.getRecordFromWorkplaceStore "n") = Except.ok (some true) ∧
    Option.map NotificationInfoRecord.muted <$> (do
      let s1 ← mutedStore.setMuteStatusInGlobalStore "n" true
      s1.getRecordFromGlobalStore "n") = Except.ok (some true) :=
  ⟨rfl, rfl,
    (C5_amended_setMute_sets_given_flag mutedStore "n" true rfl rfl).1,
    (C5_amended_setMute_sets_given_flag mutedStore "n" true rfl rfl).2⟩

/-- Claim C7: one completed invocation of `initMessageHandler` posts exactly
one message, of the fixed five-field shape, with `messageType = RESPONSE`
and `command = INIT`. -/
theorem C7_posts_single_init_response (context : WebviewContext)
    (authState : ChatAuthState) :
    (initMessageHandler context authState).length = 1 ∧
    initMessageHandler context authState =
      [{ messageType := MessageType.response
         command := Command.init
         templateFileName := basename context.defaultTemplatePath
         templateFilePath := context.defaultTemplatePath
         isConnectedToCodeWhisperer :=
           (authState.codewhispererChat == "connected") ||
             (authState.codewhispererChat == "expired") }] :=
  ⟨rfl, rfl⟩

/-- Claim C9: the `isConnectedToCodeWhisperer` field of the posted init
response is true exactly when the chat auth state is "connected" or
"expired"; in particular an expired connection is reported as connected. -/
theorem C9_isConnected_iff_connected_or_expired (context : WebviewContext)
    (authState : ChatAuthState) (m : InitResponseMessage)
    (hm : m ∈ initMessageHandler context authState) :
    m.isConnectedToCodeWhisperer = true ↔
      (authState.codewhispererChat = "connected" ∨
        authState.codewhispererChat = "expired") := by
  simp [initMessageHandler] at hm
  subst hm
  simp

/-- Witness for C9 at an expired auth state: the posted message reports the
connection as active. -/
theorem C9_isConnected_iff_connected_or_expired_witness :
    ((⟨MessageType.response, Command.init, "b.yaml", "/a/b.yaml", true⟩ :
      InitResponseMessage) ∈
      initMessageHandler ⟨"/a/b.yaml"⟩ ⟨"expired"⟩) ∧
    (⟨MessageType.response, Command.init, "b.yaml", "/a/b.yaml", true⟩ :
      InitResponseMessage).isConnectedToCodeWhisperer = true :=
  ⟨by decide,
    (C9_isConnected_iff_connected_or_expired ⟨"/a/b.yaml"⟩ ⟨"expired"⟩
      ⟨MessageType.response, Command.init, "b.yaml", "/a/b.yaml", true⟩
      (by decide)).mpr (Or.inr rfl)⟩

/-- Claim C6: adding a record and reading it back under its name returns the
record verbatim; reads go through the key `StorageKey ++ name` only; and
every mutating store operation leaves the value under every other key, and
the entire other-scoped memento, unchanged. -/
theorem C6_roundtrip_and_key_isolation (s : NotificationInfoStore)
    (r : NotificationInfoRecord) (name : String) (b : Bool) (now : Nat)
    (k : String)
    (hgok : s.globalStore.fail = none)
    (hwok : s.workplaceStore.fail = none)
    (hkr : k ≠ StorageKey ++ r.notificationName)
    (hkn : k ≠ StorageKey ++ name) :
    s.getRecordFromGlobalStore name = s.globalStore.get (StorageKey ++ name) ∧
    s.getRecordFromWorkplaceStore name =
      s.workplaceStore.get (StorageKey ++ name) ∧
    (do
      let s1 ← s.addRecordToGlobalStore r
      s1.getRecordFromGlobalStore r.notificationName) = Except.ok (some r) ∧
    (do
      let s1 ← s.addRecordToWorkplaceStore r
      s1.getRecordFromWorkplaceStore r.notificationName) = Except.ok (some r) ∧
    (fun t => t.globalStore.data k) <$> s.addRecordToGlobalStore r =
      Except.ok (s.globalStore.data k) ∧
    (fun t => t.workplaceStore) <$> s.addRecordToGlobalStore r =
      Except.ok s.workplaceStore ∧
    (fun t => t.workplaceStore.data k) <$> s.addRecordToWorkplaceStore r =
      Except.ok (s.workplaceStore.data k) ∧
    (fun t => t.globalStore) <$> s.addRecordToWorkplaceStore r =
      Except.ok s.globalStore ∧
    (fun t => t.globalStore.data k) <$> s.setMuteStatusInGlobalStore name b =
      Except.ok (s.globalStore.data k) ∧
    (fun t => t.workplaceStore) <$> s.setMuteStatusInGlobalStore name b =
      Except.ok s.workplaceStore ∧
    (fun t => t.workplaceStore.data k) <$> s.setMuteStatusInWorkplaceStore name b =
      Except.ok (s.workplaceStore.data k) ∧
    (fun t => t.globalStore) <$> s.setMuteStatusInWorkplaceStore name b =
      Except.ok s.globalStore ∧
    (fun t => t.globalStore.data k) <$>
        s.addNewViewToNotificationInGlobalStore name now =
      Except.ok (s.globalStore.data k) ∧
    (fun t => t.workplaceStore) <$>
        s.addNewViewToNotificationInGlobalStore name now =
      Except.ok s.workplaceStore ∧
    (fun t => t.workplaceStore.data k) <$>
        s.addNewViewToNotificationInWorkplaceStore name now =
      Except.ok (s.workplaceStore.data k) ∧
    (fun t => t.globalStore) <$>
        s.addNewViewToNotificationInWorkplaceStore name now =
      Except.ok s.globalStore := by
  refine ⟨rfl, rfl, ?_, ?_, ?_, ?_, ?_, ?_, ?_, ?_, ?_, ?_, ?_, ?_, ?_, ?_⟩
  all_goals
    simp [NotificationInfoStore.addRecordToGlobalStore,
      NotificationInfoStore.addRecordToWorkplaceStore,
      NotificationInfoStore.setMuteStatusInGlobalStore,
      NotificationInfoStore.setMuteStatusInWorkplaceStore,
      NotificationInfoStore.addNewViewToNotificationInGlobalStore,
      NotificationInfoStore.addNewViewToNotificationInWorkplaceStore,
      NotificationInfoStore.getRecordFromGlobalStore,
      NotificationInfoStore.getRecordFromWorkplaceStore,
      Memento.get, Memento.update, hgok, hwok, hkr, hkn,
      exceptBind_ok, exceptMap_ok]

/-- Witness for C6 at a concrete store, `sampleRecord`, name "n", flag true,
clock 7 and the unrelated key "OTHER". -/
theorem C6_roundtrip_and_key_isolation_witness :
    storeWithN.globalStore.fail = none ∧
    storeWithN.workplaceStore.fail = none ∧
    "OTHER" ≠ StorageKey ++ sampleRecord.notificationName ∧
    "OTHER" ≠ StorageKey ++ "n" ∧
    (storeWithN.getRecordFromGlobalStore "n" =
      storeWithN.globalStore.get (StorageKey ++ "n") ∧
    storeWithN.getRecordFromWorkplaceStore "n" =
      storeWithN.workplaceStore.get (StorageKey ++ "n") ∧
    (do
      let s1 ← storeWithN.addRecordToGlobalStore sampleRecord
      s1.getRecordFromGlobalStore sampleRecord.notificationName) =
      Except.ok (some sampleRecord) ∧
    (do
      let s1 ← storeWithN.addRecordToWorkplaceStore sampleRecord
      s1.getRecordFromWorkplaceStore sampleRecord.notificationName) =
      Except.ok (some sampleRecord) ∧
    (fun t => t.globalStore.data "OTHER") <$>
        storeWithN.addRecordToGlobalStore sampleRecord =
      Except.ok (storeWithN.globalStore.data "OTHER") ∧
    (fun t => t.workplaceStore) <$> storeWithN.addRecordToGlobalStore sampleRecord =
      Except.ok storeWithN.workplaceStore ∧
    (fun t => t.workplaceStore.data "OTHER") <$>
        storeWithN.addRecordToWorkplaceStore sampleRecord =
      Except.ok (storeWithN.workplaceStore.data "OTHER") ∧
    (fun t => t.globalStore) <$> storeWithN.addRecordToWorkplaceStore sampleRecord =
      Except.ok storeWithN.globalStore ∧
    (fun t => t.globalStore.data "OTHER") <$>
        storeWithN.setMuteStatusInGlobalStore "n" true =
      Except.ok (storeWithN.globalStore.data "OTHER") ∧
    (fun t => t.workplaceStore) <$> storeWithN.setMuteStatusInGlobalStore "n" true =
      Except.ok storeWithN.workplaceStore ∧
    (fun t => t.workplaceStore.data "OTHER") <$>
        storeWithN.setMuteStatusInWorkplaceStore "n" true =
      Except.ok (storeWithN.workplaceStore.data "OTHER") ∧
    (fun t => t.globalStore) <$> storeWithN.setMuteStatusInWorkplaceStore "n" true =
      Except.ok storeWithN.globalStore ∧
    (fun t => t.globalStore.data "OTHER") <$>
        storeWithN.addNewViewToNotificationInGlobalStore "n" 7 =
      Except.ok (storeWithN.globalStore.data "OTHER") ∧
    (fun t => t.workplaceStore) <$>
        storeWithN.addNewViewToNotificationInGlobalStore "n" 7 =
      Except.ok storeWithN.workplaceStore ∧
    (fun t => t.workplaceStore.data "OTHER") <$>
        storeWithN.addNewViewToNotificationInWorkplaceStore "n" 7 =
      Except.ok (storeWithN.workplaceStore.data "OTHER") ∧
    (fun t => t.globalStore) <$>
        storeWithN.addNewViewToNotificationInWorkplaceStore "n" 7 =
      Except.ok storeWithN.globalStore) :=
  ⟨rfl, rfl, by decide, by decide,
    C6_roundtrip_and_key_isolation storeWithN sampleRecord "n" true 7 "OTHER"
      rfl rfl (by decide) (by decide)⟩

/-- Claim C8: when the host key-value store fails, every operation of
`NotificationInfoStore` rejects with that same error, unchanged, with no
retry and no local recovery. -/
theorem C8_storage_errors_propagate (s : NotificationInfoStore) (e : String)
    (r : NotificationInfoRecord) (name : String) (b : Bool) (now : Nat)
    (hg : s.globalStore.fail = some e)
    (hw : s.workplaceStore.fail = some e) :
    s.getRecordFromGlobalStore name = Except.error e ∧
    s.getRecordFromWorkplaceStore name = Except.error e ∧
    s.addRecordToGlobalStore r = Except.error e ∧
    s.addRecordToWorkplaceStore r = Except.error e ∧
    s.setMuteStatusInGlobalStore name b = Except.error e ∧
    s.setMuteStatusInWorkplaceStore name b = Except.error e ∧
    s.addNewViewToNotificationInGlobalStore name now = Except.error e ∧
    s.addNewViewToNotificationInWorkplaceStore name now = Except.error e := by
  refine ⟨?_, ?_, ?_, ?_, ?_, ?_, ?_, ?_⟩
  all_goals
    simp [NotificationInfoStore.addRecordToGlobalStore,
      NotificationInfoStore.addRecordToWorkplaceStore,
      NotificationInfoStore.setMuteStatusInGlobalStore,
      NotificationInfoStore.setMuteStatusInWorkplaceStore,
      NotificationInfoStore.addNewViewToNotificationInGlobalStore,
      NotificationInfoStore.addNewViewToNotificationInWorkplaceStore,
      NotificationInfoStore.getRecordFromGlobalStore,
      NotificationInfoStore.getRecordFromWorkplaceStore,
      Memento.get, Memento.update, hg, hw,
      exceptBind_error, exceptMap_error]

/-- Witness for C8 at a store whose host storage rejects with "boom". -/
theorem C8_storage_errors_propagate_witness :
    failingStore.globalStore.fail = some "boom" ∧
    failingStore.workplaceStore.fail = some "boom" ∧
    (failingStore.getRecordFromGlobalStore "n" = Except.error "boom" ∧
    failingStore.getRecordFromWorkplaceStore "n" = Except.error "boom" ∧
    failingStore.addRecordToGlobalStore sampleRecord = Except.error "boom" ∧
    failingStore.addRecordToWorkplaceStore sampleRecord = Except.error "boom" ∧
    failingStore.setMuteStatusInGlobalStore "n" true = Except.error "boom" ∧
    failingStore.setMuteStatusInWorkplaceStore "n" true = Except.error "boom" ∧
    failingStore.addNewViewToNotificationInGlobalStore "n" 7 =
      Except.error "boom" ∧
    failingStore.addNewViewToNotificationInWorkplaceStore "n" 7 =
      Except.error "boom") :=
  ⟨rfl, rfl,
    C8_storage_errors_propagate failingStore "boom" sampleRecord "n" true 7
      rfl rfl⟩

/-- Claim C10: with no record stored under the name, `setMuteStatusInWorkplaceStore`
(resp. `setMuteStatusInGlobalStore`) creates and stores a record with
`viewsCounter = 0`, `lastSeen = 0`, the given name, and `muted` equal to the
given boolean. -/
theorem C10_setMute_absent_creates_record (s : NotificationInfoStore)
    (name : String) (b : Bool)
    (hgok : s.globalStore.fail = none)
    (hwok : s.workplaceStore.fail = none)
    (hga : s.globalStore.data (StorageKey ++ name) = none)
    (hwa : s.workplaceStore.data (StorageKey ++ name) = none) :
    (do
      let s1 ← s.setMuteStatusInWorkplaceStore name b
      s1.getRecordFromWorkplaceStore name) =
      Except.ok (some
        { notificationName := name
          viewsCounter := 0
          lastSeen := 0
          muted := b }) ∧
    (do
      let s1 ← s.setMuteStatusInGlobalStore name b
      s1.getRecordFromGlobalStore name) =
      Except.ok (some
        { notificationName := name
          viewsCounter := 0
          lastSeen := 0
          muted := b }) := by
  constructor
  · simp [NotificationInfoStore.setMuteStatusInWorkplaceStore,
      NotificationInfoStore.getRecordFromWorkplaceStore,
      NotificationInfoStore.getEmptyRecord, Memento.get, Memento.update,
      hwok, hwa, exceptBind_ok, exceptMap_ok]
  · simp [NotificationInfoStore.setMuteStatusInGlobalStore,
      NotificationInfoStore.getRecordFromGlobalStore,
      NotificationInfoStore.getEmptyRecord, Memento.get, Memento.update,
      hgok, hga, exceptBind_ok, exceptMap_ok]

/-- Witness for C10 at the empty store, name "n", flag true. -/
theorem C10_setMute_absent_creates_record_witness :
    emptyStore.globalStore.fail = none ∧
    emptyStore.workplaceStore.fail = none ∧
    emptyStore.globalStore.data (StorageKey ++ "n") = none ∧
    emptyStore.workplaceStore.data (StorageKey ++ "n") = none ∧
    ((do
      let s1 ← emptyStore.setMuteStatusInWorkplaceStore "n" true
      s1.getRecordFromWorkplaceStore "n") =
      Except.ok (some
        { notificationName := "n"
          viewsCounter := 0
          lastSeen := 0
          muted := true }) ∧
    (do
      let s1 ← emptyStore.setMuteStatusInGlobalStore "n" true
      s1.getRecordFromGlobalStore "n") =
      Except.ok (some
        { notificationName := "n"
          viewsCounter := 0
          lastSeen := 0
          muted := true })) :=
  ⟨rfl, rfl, rfl, rfl,
    C10_setMute_absent_creates_record emptyStore "n" true rfl rfl rfl rfl⟩
